import Mathlib

/-!
# Mesh input/output notebook: verification of the reading, export and solve pipeline

Shallow embedding of the Python code in `tutorials/Part2_mesh_io/mesh_io.ipynb`
(the mesh-io notebook and the appended basics notebook).  Text files are
modelled as lists of lines; Python floats are modelled as rationals; Python's
builtin exceptions (`ValueError` from tuple unpacking and literal conversion,
`IndexError` from list-index assignment) are modelled as explicit error
values.  Operations delegated to the external OpenCMISS-Iron library (field
getters, assembly, the linear solve) are modelled from the specification where
a claim is about them; such definitions are marked `Modelled from the spec`.
-/

namespace MeshNb

/-! ## Python string primitives -/

/-- Maximal nonempty runs of non-whitespace characters, accumulating the
current (reversed) word in `cur`: the semantics of Python `str.split()`
with no separator argument. -/
def pyWordsAux (cur : List Char) : List Char → List (List Char)
  | [] => if cur = [] then [] else [cur.reverse]
  | c :: cs =>
    if c.isWhitespace then
      if cur = [] then pyWordsAux [] cs
      else cur.reverse :: pyWordsAux [] cs
    else pyWordsAux (c :: cur) cs

/-- Python `s.split()`: whitespace-delimited words of `s`, empties dropped. -/
def pySplit (s : String) : List String :=
  (pyWordsAux [] s.toList).map (fun w => String.mk w)

/-- The numeric value of a decimal digit character, `none` otherwise. -/
def digit? (c : Char) : Option Nat :=
  if c = '0' then some 0 else if c = '1' then some 1 else if c = '2' then some 2
  else if c = '3' then some 3 else if c = '4' then some 4 else if c = '5' then some 5
  else if c = '6' then some 6 else if c = '7' then some 7 else if c = '8' then some 8
  else if c = '9' then some 9 else none

/-- Accumulating base-10 read of a digit string. -/
def digitsAux (acc : Nat) : List Char → Option Nat
  | [] => some acc
  | c :: cs =>
    match digit? c with
    | some d => digitsAux (10 * acc + d) cs
    | none => none

/-- A nonempty run of decimal digits as a natural number, `none` otherwise. -/
def digitsToNat? : List Char → Option Nat
  | [] => none
  | cs => digitsAux 0 cs

/-- Python `int(token)` on a plain decimal token with optional leading minus:
`none` models a raised `ValueError`. -/
def pyInt? (s : String) : Option Int :=
  if s.toList.head? = some '-' then (digitsToNat? s.toList.tail).map (fun n => -(n : Int))
  else (digitsToNat? s.toList).map (fun n => (n : Int))

/-- Unsigned part of Python `float(token)`: decimal digits with an optional
single point and fractional digits, as an exact rational. -/
def pyFloatChars? (cs : List Char) : Option ℚ :=
  let intPart := cs.takeWhile (fun c => c ≠ '.')
  match cs.dropWhile (fun c => c ≠ '.') with
  | [] => (digitsToNat? intPart).map (fun n => (n : ℚ))
  | _ :: frac =>
    if frac.contains '.' then none
    else
      match digitsToNat? intPart, digitsToNat? frac with
      | some n, some f => some ((n : ℚ) + (f : ℚ) / ((10 : ℚ) ^ frac.length))
      | _, _ => none

/-- Python `float(token)` on a plain decimal literal (optional sign, integer
part, point, fractional part), as an exact rational: `none` models a raised
`ValueError`. -/
def pyFloat? (s : String) : Option ℚ :=
  if s.toList.head? = some '-' then (pyFloatChars? s.toList.tail).map (fun q => -q)
  else pyFloatChars? s.toList

/-! ## Errors

The reading code raises only Python builtin exceptions.  The specification's
§7 names dedicated error classes instead; those are included here as further
constructors (`Modelled from the spec`) so that claims about them can be
stated and compared with what the code actually produces: the embedded code
never constructs them. -/

/-- Errors of the mesh I/O pipeline.  The first four constructors are the
Python builtin exceptions the notebook code can raise; the last four are the
specification's named error classes (Modelled from the spec, §7), never
raised by the code. -/
inductive MeshError
  /-- `ValueError: not enough values to unpack (expected e, got g)` -/
  | valueErrorNotEnough (expected got : Nat)
  /-- `ValueError: too many values to unpack (expected e)` -/
  | valueErrorTooMany (expected : Nat)
  /-- `ValueError` from `int(...)` or `float(...)` on a bad literal -/
  | valueErrorBadLiteral (s : String)
  /-- `IndexError: list assignment index out of range` -/
  | indexError
  | truncatedFileError
  | malformedHeaderError
  | danglingNodeReferenceError
  | invertedElementError
deriving DecidableEq, Repr

/-- Python `int(token)` as a fallible computation. -/
def pyIntE (s : String) : Except MeshError Int :=
  match pyInt? s with
  | some n => .ok n
  | none => .error (.valueErrorBadLiteral s)

/-- Python `float(token)` as a fallible computation. -/
def pyFloatE (s : String) : Except MeshError ℚ :=
  match pyFloat? s with
  | some q => .ok q
  | none => .error (.valueErrorBadLiteral s)

/-! ## The node file reader

```
num_nodes, num_coords, num_attributes, boundary_markers = node_file.readline().split()
NodeNums = [[0 for m in range(2)] for n in range(num_nodes)]
NodeCoords = [[0 for m in range(num_coords)] for n in range(num_nodes)]
for i in range(num_nodes):
    NodeNums[i][0], NodeCoords[i][0], NodeCoords[i][1], NodeCoords[i][2] = node_file.readline().split()
    NodeNums[i][0] = int(NodeNums[i][0])
    NodeCoords[i][0] = float(NodeCoords[i][0])
    NodeCoords[i][1] = float(NodeCoords[i][1])
    NodeCoords[i][2] = float(NodeCoords[i][2])
```
`readline()` on an exhausted file returns `""`.  The four-name tuple unpack
raises `ValueError` unless the line splits into exactly four tokens; the
assignment to `NodeCoords[i][2]` (and `[1]`, `[0]`) raises `IndexError` when
the row, sized by `num_coords`, is too short.  Conversions run afterwards. -/

/-- One iteration of the node-reading loop on one line: returns the parsed
`(node number, x, y, z)`.  `numCoords` is the length of each `NodeCoords`
row. -/
def readNodeLine (numCoords : Nat) (line : String) : Except MeshError (Int × ℚ × ℚ × ℚ) :=
  match pySplit line with
  | [t0, t1, t2, t3] =>
    if numCoords < 3 then .error .indexError
    else do
      let id ← pyIntE t0
      let x ← pyFloatE t1
      let y ← pyFloatE t2
      let z ← pyFloatE t3
      .ok (id, x, y, z)
  | ts =>
    if ts.length < 4 then .error (.valueErrorNotEnough 4 ts.length)
    else .error (.valueErrorTooMany 4)

/-- A `NodeCoords` row after a successful line read: positions 0,1,2 hold the
parsed coordinates, the remaining positions keep their initial `0`. -/
def nodeCoordsRow (numCoords : Nat) (x y z : ℚ) : List ℚ :=
  [x, y, z] ++ List.replicate (numCoords - 3) 0

/-- The node-reading `for` loop over the remaining lines, `n` iterations. -/
def readNodeLoop (numCoords : Nat) : List String → Nat → Except MeshError (List Int × List (List ℚ))
  | _, 0 => .ok ([], [])
  | ls, Nat.succ n => do
    let (id, x, y, z) ← readNodeLine numCoords (ls.headD (""))
    let (ids, coords) ← readNodeLoop numCoords ls.tail n
    .ok (id :: ids, nodeCoordsRow numCoords x y z :: coords)

/-- The data produced by a successful run of the node-file reading cell.
`nodeNums` lists `NodeNums[i][0]`; the second column of `NodeNums` is
initialised to `0` and never written, so it is not carried. -/
structure NodeFileData where
  num_nodes : Int
  num_coords : Int
  num_attributes : Int
  boundary_markers : Int
  nodeNums : List Int
  nodeCoords : List (List ℚ)
deriving DecidableEq, Repr

/-- The node-file reading cell on a file given as its list of lines. -/
def readNodeFile (lines : List String) : Except MeshError NodeFileData :=
  match pySplit (lines.headD ("")) with
  | [a, b, c, d] => do
    let num_nodes ← pyIntE a
    let num_coords ← pyIntE b
    let num_attributes ← pyIntE c
    let boundary_markers ← pyIntE d
    let (ids, coords) ← readNodeLoop num_coords.toNat lines.tail num_nodes.toNat
    .ok ⟨num_nodes, num_coords, num_attributes, boundary_markers, ids, coords⟩
  | ts =>
    if ts.length < 4 then .error (.valueErrorNotEnough 4 ts.length)
    else .error (.valueErrorTooMany 4)

/-! ## The element file reader

```
num_elements, nodes_per_ele, ele_attributes = elem_file.readline().split()
ElemMap = [[0 for x in range(nodes_per_ele+ele_attributes)] for y in range(num_elements)]
Elemindex = [[0 for m in range(1)] for n in range(num_elements)]
for i in range(num_elements):
    Elemindex[i][0], ElemMap[i][0], ElemMap[i][1], ElemMap[i][2], ElemMap[i][3] = elem_file.readline().split()
```
No conversions are applied here: `Elemindex` and the first four `ElemMap`
columns hold the raw tokens as strings.  Columns of `ElemMap` beyond index 3
keep their initial `0` and are never read afterwards, so they are not
carried. -/

/-- One iteration of the element-reading loop: the five raw tokens.
`rowLen` is `nodes_per_ele + ele_attributes`, the length of an `ElemMap`
row; the assignments to `ElemMap[i][0..3]` raise `IndexError` when it is
less than 4. -/
def readElemLine (rowLen : Nat) (line : String) :
    Except MeshError (String × String × String × String × String) :=
  match pySplit line with
  | [t0, t1, t2, t3, t4] =>
    if rowLen < 4 then .error .indexError
    else .ok (t0, t1, t2, t3, t4)
  | ts =>
    if ts.length < 5 then .error (.valueErrorNotEnough 5 ts.length)
    else .error (.valueErrorTooMany 5)

/-- The element-reading `for` loop over the remaining lines, `n` iterations. -/
def readElemLoop (rowLen : Nat) :
    List String → Nat → Except MeshError (List String × List (String × String × String × String))
  | _, 0 => .ok ([], [])
  | ls, Nat.succ n => do
    let (e, m0, m1, m2, m3) ← readElemLine rowLen (ls.headD (""))
    let (es, ms) ← readElemLoop rowLen ls.tail n
    .ok (e :: es, (m0, m1, m2, m3) :: ms)

/-- The data produced by a successful run of the element-file reading cell. -/
structure ElemFileData where
  num_elements : Int
  nodes_per_ele : Int
  ele_attributes : Int
  elemIndex : List String
  elemMap : List (String × String × String × String)
deriving DecidableEq, Repr

/-- The element-file reading cell on a file given as its list of lines. -/
def readElemFile (lines : List String) : Except MeshError ElemFileData :=
  match pySplit (lines.headD ("")) with
  | [a, b, c] => do
    let num_elements ← pyIntE a
    let nodes_per_ele ← pyIntE b
    let ele_attributes ← pyIntE c
    let (es, ms) ← readElemLoop (nodes_per_ele + ele_attributes).toNat lines.tail num_elements.toNat
    .ok ⟨num_elements, nodes_per_ele, ele_attributes, es, ms⟩
  | ts =>
    if ts.length < 3 then .error (.valueErrorNotEnough 3 ts.length)
    else .error (.valueErrorTooMany 3)

/-! ## Mesh element definition

```
for i in range(num_elements):
    element=Elemindex[i][0]
    nodesList = list(map(int,[ElemMap[i][0], ElemMap[i][1], ElemMap[i][2], ElemMap[i][3]]))
    meshElements.NodesSet(int(element), nodesList)
```
The calls into `iron.MeshElements` are external; what the repository code
computes and hands over is the sequence of `(element id, nodesList)` pairs,
in loop order.  No check whatsoever is made against the node set read from
the node file. -/

/-- The `meshElements.NodesSet` loop body over the zipped read data:
converts tokens with `int(...)` and collects the `(element, nodesList)`
arguments passed to the library. -/
def buildMeshElementsLoop :
    List (String × (String × String × String × String)) → Except MeshError (List (Int × List Int))
  | [] => .ok []
  | (e, (m0, m1, m2, m3)) :: rest => do
    let n0 ← pyIntE m0
    let n1 ← pyIntE m1
    let n2 ← pyIntE m2
    let n3 ← pyIntE m3
    let el ← pyIntE e
    let tl ← buildMeshElementsLoop rest
    .ok ((el, [n0, n1, n2, n3]) :: tl)

/-- The `meshElements.NodesSet` loop applied to an element-file read. -/
def buildMeshElements (d : ElemFileData) : Except MeshError (List (Int × List Int)) :=
  buildMeshElementsLoop (d.elemIndex.zip d.elemMap)

/-- The element-loading pipeline of the notebook: read the element file,
then define the mesh elements.  The node set read from the node file is
not an input: the code never consults it. -/
def loadElements (lines : List String) : Except MeshError (List (Int × List Int)) := do
  let d ← readElemFile lines
  buildMeshElements d

/-! ## Export of the solved mesh

```
nodes_list = [[0 for coord in range(0,num_coords+2)] for node in range(0,num_nodes)]
for i in range(0,num_nodes):
    node=i+1
    node_coordx = geometric_field.ParameterSetGetNodeDP(..., node, 1)
    node_coordy = geometric_field.ParameterSetGetNodeDP(..., node, 2)
    node_coordz = geometric_field.ParameterSetGetNodeDP(..., node, 3)
    node_solution_value = solution_field.ParameterSetGetNodeDP(..., node, 1)
    nodes_list[i] = [node,node_coordx,node_coordy,node_coordz,node_solution_value]
```
The field getters are external library calls; they are parameters here:
`geom node c` is the geometric field value of node `node`, component `c`,
and `sol node` the solution field value of node `node`. -/

/-- One row of `nodes_list`: `[node, x, y, z, solution]`. -/
structure NodeRecord where
  node : Int
  x : ℚ
  y : ℚ
  z : ℚ
  sol : ℚ
deriving DecidableEq, Repr

/-- The `nodes_list` built by the export cell. -/
def nodes_list (num_nodes : Nat) (geom : Nat → Nat → ℚ) (sol : Nat → ℚ) : List NodeRecord :=
  (List.range num_nodes).map (fun (i : Nat) =>
    ⟨Int.ofNat (i+1), geom (i+1) 1, geom (i+1) 2, geom (i+1) 3, sol (i+1)⟩)

/-- Python `str(...)` of an integer. -/
def pyStrInt (n : Int) : String := toString n

/-- Python `str(line)` of a `nodes_list` row, a Python list display:
`"[node, x, y, z, sol]"`.  Python's float `repr` is abstracted by the
rendering function `frepr`. -/
def strNodeRecord (frepr : ℚ → String) (r : NodeRecord) : String :=
  ("[") ++ pyStrInt r.node ++ (", ") ++ frepr r.x ++ (", ") ++ frepr r.y ++ (", ") ++
    frepr r.z ++ (", ") ++ frepr r.sol ++ ("]")

/-- `node_file.writelines([str(line) + "\n" for line in nodes_list])`: the
lines of the written node file. -/
def writeNodeFileLines (frepr : ℚ → String) (rows : List NodeRecord) : List String :=
  rows.map (strNodeRecord frepr)

/-- The `elements_list` built by the export cell:
```
for j in range(0,num_elem):
    elemidx=j+1
    elemnodes = meshElements.NodesGet(elemidx,4)
    elements_list[j] = [elemidx,elemnodes[0],elemnodes[1],elemnodes[2],elemnodes[3]]
```
`meshElements.NodesGet` is an external library call, a parameter here:
`elemNodes e k` is the `k`-th node id of element `e`. -/
def elements_list (num_elem : Nat) (elemNodes : Nat → Fin 4 → Int) : List (List Int) :=
  (List.range num_elem).map (fun (j : Nat) =>
    [Int.ofNat (j+1), elemNodes (j+1) 0, elemNodes (j+1) 1, elemNodes (j+1) 2, elemNodes (j+1) 3])

/-! ## Numpy array export

```
nodesx = np.array(nodes_list[:][1])
np.save('CARDIOMYOCYTE_OUTPUT.x.npy',nodesx)
nodesy = np.array(nodes_list[:][2])
...
```
`nodes_list[:]` is a shallow copy of the list, so `nodes_list[:][k]` is the
row `nodes_list[k]`, a full five-entry node record, not the `k`-th column.
`np.array` of the mixed `[int, float, float, float, float]` row is a float
array; `none` models the `IndexError` raised when the list is too short. -/

/-- A `nodes_list` row as the float array `np.array` makes of it. -/
def npArrayOfRecord (r : NodeRecord) : List ℚ :=
  [(r.node : ℚ), r.x, r.y, r.z, r.sol]

/-- `np.array(nodes_list[:][k])` for a row index `k`. -/
def npSliceIndex (rows : List NodeRecord) (k : Nat) : Option (List ℚ) :=
  (rows.get? k).map npArrayOfRecord

/-- The four arrays saved by the numpy export cell, in file order
(`.x.npy`, `.y.npy`, `.z.npy`, `.sol.npy`). -/
def numpyExport (rows : List NodeRecord) :
    Option (List ℚ) × Option (List ℚ) × Option (List ℚ) × Option (List ℚ) :=
  (npSliceIndex rows 1, npSliceIndex rows 2, npSliceIndex rows 3, npSliceIndex rows 4)

/-! ## Visualization (vtk) export

```
points = np.array(NodeCoords)
cells_array = np.array(elements_list)[:,1:5] - 1
solution_field_nodes = np.zeros(num_nodes)
for i in range(num_nodes):
    node = i+1
    solution_field_nodes[i] = solution_field.ParameterSetGetNodeDP(..., node, 1)
meshio.write_points_cells("CARDIOMYOCYTE_OUTPUT.vtk",points,cells,point_data={"solution":solution_field_nodes})
``` -/

/-- `np.array(elements_list)[:,1:5] - 1`: columns 1..4 of each row, each
entry decremented by one. -/
def cells_array (rows : List (List Int)) : List (List Int) :=
  rows.map (fun row => ((row.drop 1).take 4).map (fun v => v - 1))

/-- The `solution_field_nodes` array: entry `i` is the solution value of
node `i+1`. -/
def solution_field_nodes (num_nodes : Nat) (sol : Nat → ℚ) : List ℚ :=
  (List.range num_nodes).map (fun i => sol (i+1))

/-- The mesh's node mapping as established by the node-file read: the
coordinate row stored for a node id, found at the first position whose
`NodeNums` entry is that id. -/
def coordsOfNode (d : NodeFileData) (id : Int) : Option (List ℚ) :=
  (d.nodeNums.findIdx? (fun v => v == id)).bind (fun i => d.nodeCoords[i]?)

/-! ## Assembly-time Jacobian check

Assembly is performed entirely by the external OpenCMISS-Iron library; the
repository contains only its caller.  The check below is therefore modelled
from the specification. -/

/-- Componentwise difference of two points of `ℚ³`. -/
def vsub (p q : ℚ × ℚ × ℚ) : ℚ × ℚ × ℚ :=
  (p.1 - q.1, p.2.1 - q.2.1, p.2.2 - q.2.2)

/-- Determinant of the `3 × 3` matrix with rows `u`, `v`, `w`. -/
def det3 (u v w : ℚ × ℚ × ℚ) : ℚ :=
  u.1 * (v.2.1 * w.2.2 - v.2.2 * w.2.1)
    - u.2.1 * (v.1 * w.2.2 - v.2.2 * w.1)
    + u.2.2 * (v.1 * w.2.1 - v.2.1 * w.1)

/-- A linear tetrahedron as its ordered node coordinate list. -/
structure Tet where
  p1 : ℚ × ℚ × ℚ
  p2 : ℚ × ℚ × ℚ
  p3 : ℚ × ℚ × ℚ
  p4 : ℚ × ℚ × ℚ
deriving DecidableEq, Repr

/-- Modelled from the spec (§4.3): the Jacobian determinant of the linear
map from the reference tetrahedron, `det [p2-p1; p3-p1; p4-p1]` (the
transpose of the Jacobian, with the same determinant). -/
def tetJacobianDet (t : Tet) : ℚ :=
  det3 (vsub t.p2 t.p1) (vsub t.p3 t.p1) (vsub t.p4 t.p1)

/-- Modelled from the spec (§4.3): the assembler's per-element check —
fail with `InvertedElementError` if the Jacobian determinant is
non-positive, otherwise hand the determinant on. -/
def tetJacobianCheck (t : Tet) : Except MeshError ℚ :=
  if tetJacobianDet t ≤ 0 then .error .invertedElementError
  else .ok (tetJacobianDet t)

/-- Modelled from the spec (§4.3): the assembly loop over a mesh's
elements, running the Jacobian check on each. -/
def assembleJacobianChecks : List Tet → Except MeshError (List ℚ)
  | [] => .ok []
  | t :: ts => do
    let d ← tetJacobianCheck t
    let ds ← assembleJacobianChecks ts
    .ok (d :: ds)

/-- The node list of a tetrahedron in reversed order. -/
def tetReverse (t : Tet) : Tet := ⟨t.p4, t.p3, t.p2, t.p1⟩

/-! ## The Laplace problem of the basics notebook

The basics notebook generates a regular mesh of `1 × 3` bilinear Lagrange
elements on a `width = 1 × height = 1` rectangle (8 nodes, numbered with x
varying fastest), fixes node 1 to `0.0` and node 8 (the last node) to `1.0`,
and calls `problem.Solve()`.  Mesh generation, assembly and solve happen in
the external library; they are modelled from the specification (§4.2–§4.5):
bilinear Lagrange shape functions, a quadrature rule exact for the
stiffness integrand, element-loop scatter assembly, and Dirichlet treatment
by elimination, so that the solved field is exactly the solution of the
constrained linear system. -/

/-- Modelled from the spec (§4.2): bilinear Lagrange shape functions on the
unit square, local nodes ordered `(0,0), (1,0), (0,1), (1,1)`. -/
def shapeN : Fin 4 → ℚ → ℚ → ℚ
  | 0 => fun s t => (1 - s) * (1 - t)
  | 1 => fun s t => s * (1 - t)
  | 2 => fun s t => (1 - s) * t
  | 3 => fun s t => s * t

/-- Parametric derivative of `shapeN` in the first direction. -/
def shapeDs : Fin 4 → ℚ → ℚ → ℚ
  | 0 => fun _ t => -(1 - t)
  | 1 => fun _ t => 1 - t
  | 2 => fun _ t => -t
  | 3 => fun _ t => t

/-- Parametric derivative of `shapeN` in the second direction. -/
def shapeDt : Fin 4 → ℚ → ℚ → ℚ
  | 0 => fun s _ => -(1 - s)
  | 1 => fun s _ => -s
  | 2 => fun s _ => 1 - s
  | 3 => fun s _ => s

/-- Simpson's rule on `[0,1]`: exact for polynomials of degree at most 3,
with rational points and weights. -/
def simpson1D : List (ℚ × ℚ) := [((0 : ℚ), 1/6), (1/2, 4/6), (1, 1/6)]

/-- Modelled from the spec (§4.2): a tensor-product quadrature rule on the
unit square, exact for the bilinear stiffness integrand (degree at most 2
in each parametric direction). -/
def quadRule2D : List ((ℚ × ℚ) × ℚ) :=
  simpson1D.flatMap (fun p => simpson1D.map (fun q => ((p.1, q.1), p.2 * q.2)))

/-- Modelled from the spec (§4.3): entry `(i, j)` of the element stiffness
matrix of a bilinear element on an axis-aligned `a × b` rectangle: the
quadrature-weighted integral of the dot product of physical shape-function
gradients times the Jacobian determinant `a * b`. -/
def elemStiffness (a b : ℚ) (i j : Fin 4) : ℚ :=
  (quadRule2D.map (fun pw =>
    pw.2 * ((shapeDs i pw.1.1 pw.1.2 * shapeDs j pw.1.1 pw.1.2) / (a * a)
      + (shapeDt i pw.1.1 pw.1.2 * shapeDt j pw.1.1 pw.1.2) / (b * b)) * (a * b))).sum

/-- Local-to-global connectivity of the generated `1 × 3` mesh: element `e`
(numbered bottom to top) has global nodes `2e, 2e+1, 2e+2, 2e+3` (0-based)
in the local order of `shapeN`. -/
def meshConn (e : Fin 3) (i : Fin 4) : Fin 8 := ⟨2 * e.val + i.val, by omega⟩

/-- Modelled from the spec (§4.3): the assembled global stiffness matrix of
the `1 × 3` mesh of `1 × (1/3)` rectangles — element loop, scatter with
accumulation. -/
def globalK (p q : Fin 8) : ℚ :=
  ∑ e : Fin 3, ∑ i : Fin 4, ∑ j : Fin 4,
    if meshConn e i = p ∧ meshConn e j = q then elemStiffness 1 (1/3) i j else 0

/-- Modelled from the spec (§4.4–§4.5): the solved field of the constrained
problem — Dirichlet values `0` at node 1 and `1` at node 8 hold exactly,
and the assembled equation of every free node is satisfied. -/
def satisfiesConstrainedSystem (u : Fin 8 → ℚ) : Prop :=
  u 0 = 0 ∧ u 7 = 1 ∧ ∀ p : Fin 8, p ≠ 0 → p ≠ 7 → (∑ q : Fin 8, globalK p q * u q) = 0

/-- The exact solution of the constrained `1 × 3` Laplace system. -/
def laplaceSolution : Fin 8 → ℚ := fun p =>
  match p.val with
  | 0 => 0
  | 1 => 19/30
  | 2 => 29/90
  | 3 => 5/9
  | 4 => 4/9
  | 5 => 61/90
  | 6 => 11/30
  | _ => 1

/-! ## Small helpers used by the statements -/

/-- Whether a fallible computation succeeded. -/
def exceptOk {α : Type} : Except MeshError α → Bool
  | .ok _ => true
  | .error _ => false

/-- The list `[a, a+1, ..., a+n-1]` of contiguous integer ids. -/
def contigIds (a : Int) : Nat → List Int
  | 0 => []
  | Nat.succ n => a :: contigIds (a + 1) n

/-- A string with no whitespace characters. -/
def wsFree (s : String) : Prop := ∀ c ∈ s.toList, c.isWhitespace = false

end MeshNb

deriving instance DecidableEq for Except

namespace MeshNb

theorem pySplit_empty : pySplit ("") = [] := rfl

theorem readNodeLoop_truncated (k : Nat) (ls : List String) (n : Nat)
    (hlen : ls.length < n)
    (hgood : ∀ l ∈ ls, exceptOk (readNodeLine k l) = true) :
    readNodeLoop k ls n = .error (.valueErrorNotEnough 4 0) := by
  induction ls generalizing n with
  | nil =>
    obtain ⟨m, rfl⟩ : ∃ m, n = m + 1 := ⟨n - 1, by omega⟩
    simp [readNodeLoop, readNodeLine, pySplit, pyWordsAux, Except.instMonad, Except.bind, Except.pure]
  | cons l ls ih =>
    obtain ⟨m, rfl⟩ : ∃ m, n = m + 1 := ⟨n - 1, by omega⟩
    have h1 : exceptOk (readNodeLine k l) = true := hgood l (by simp)
    obtain ⟨v, hv⟩ : ∃ v, readNodeLine k l = .ok v := by
      cases hr : readNodeLine k l
      · rw [hr] at h1; simp [exceptOk] at h1
      · exact ⟨_, rfl⟩
    obtain ⟨a, b, c, d⟩ := v
    have hrec := ih (n := m) (by simpa using hlen) (fun x hx => hgood x (by simp [hx]))
    simp [readNodeLoop, hv, hrec, Except.instMonad, Except.bind, Except.pure]


/-- C2 (amended): a node file whose header declares `n` nodes but supplies
fewer entity lines, all of them well-formed, fails with the `ValueError` of
unpacking the empty token list of an exhausted file (expected 4, got 0) —
not with `TruncatedFileError`, which the code never raises, and not with an
out-of-range read. -/
theorem truncated_node_file_unpack_error
    (t0 t1 t2 t3 header : String) (n nc na bm : Int) (supplied : List String)
    (hh : pySplit header = [t0, t1, t2, t3])
    (h0 : pyInt? t0 = some n) (h1 : pyInt? t1 = some nc)
    (h2 : pyInt? t2 = some na) (h3 : pyInt? t3 = some bm)
    (hlen : supplied.length < n.toNat)
    (hgood : ∀ l ∈ supplied, exceptOk (readNodeLine nc.toNat l) = true) :
    readNodeFile (header :: supplied) = .error (.valueErrorNotEnough 4 0) := by
  have hloop := readNodeLoop_truncated nc.toNat supplied n.toNat hlen hgood
  simp [readNodeFile, hh, pyIntE, h0, h1, h2, h3, hloop,
    Except.instMonad, Except.bind, Except.pure]

/-- Witness for C2: the header declares 10 nodes, nine well-formed entity
lines follow. -/
theorem truncated_node_file_unpack_error_witness :
    readNodeFile [("10 3 0 0"), ("1 0.0 0.0 0.0"), ("2 0.0 0.0 0.0"), ("3 0.0 0.0 0.0"),
      ("4 0.0 0.0 0.0"), ("5 0.0 0.0 0.0"), ("6 0.0 0.0 0.0"), ("7 0.0 0.0 0.0"),
      ("8 0.0 0.0 0.0"), ("9 0.0 0.0 0.0")] = .error (.valueErrorNotEnough 4 0) :=
  truncated_node_file_unpack_error ("10") ("3") ("0") ("0") ("10 3 0 0") 10 3 0 0 _
    (by decide) (by decide) (by decide) (by decide) (by decide) (by decide) (by decide)


theorem readNodeLine_token_count (k : Nat) (line : String)
    (h : (pySplit line).length ≠ 4) :
    readNodeLine k line = .error (if (pySplit line).length < 4
      then .valueErrorNotEnough 4 (pySplit line).length else .valueErrorTooMany 4) := by
  rcases hs : pySplit line with _ | ⟨a, _ | ⟨b, _ | ⟨c, _ | ⟨d, _ | ⟨e, tl⟩⟩⟩⟩⟩ <;>
    simp_all [readNodeLine]
  split <;> simp

/-- C3 (amended): after any well-formed header, the first entity line must
split into exactly 4 tokens — one more or one fewer than 4 raises the tuple
unpacking `ValueError`, never `MalformedHeaderError`, and the accepted
count does not depend on the declared attribute count or boundary-marker
flag. -/
theorem node_line_token_count_fixed_at_four
    (t0 t1 t2 t3 header first : String) (rest : List String) (n nc na bm : Int)
    (hh : pySplit header = [t0, t1, t2, t3])
    (h0 : pyInt? t0 = some n) (h1 : pyInt? t1 = some nc)
    (h2 : pyInt? t2 = some na) (h3 : pyInt? t3 = some bm)
    (hn : 0 < n.toNat)
    (ht : (pySplit first).length ≠ 4) :
    readNodeFile (header :: first :: rest) = .error (if (pySplit first).length < 4
        then .valueErrorNotEnough 4 (pySplit first).length else .valueErrorTooMany 4)
      ∧ readNodeFile (header :: first :: rest) ≠ .error .malformedHeaderError := by
  obtain ⟨m, hm⟩ : ∃ m, n.toNat = m + 1 := ⟨n.toNat - 1, by omega⟩
  have hline := readNodeLine_token_count nc.toNat first ht
  constructor
  · simp [readNodeFile, hh, pyIntE, h0, h1, h2, h3, hm, readNodeLoop, hline,
      Except.instMonad, Except.bind, Except.pure]
  · simp [readNodeFile, hh, pyIntE, h0, h1, h2, h3, hm, readNodeLoop, hline,
      Except.instMonad, Except.bind, Except.pure]
    split <;> simp

/-- Witness for C3: header declaring one attribute, a four-token entity
line is still required (a three-token line raises the unpacking error). -/
theorem node_line_token_count_fixed_at_four_witness :
    readNodeFile [("2 3 1 1"), ("1 0.0 0.0")] = .error (if (pySplit ("1 0.0 0.0")).length < 4
        then .valueErrorNotEnough 4 (pySplit ("1 0.0 0.0")).length else .valueErrorTooMany 4)
      ∧ readNodeFile [("2 3 1 1"), ("1 0.0 0.0")] ≠ .error .malformedHeaderError :=
  node_line_token_count_fixed_at_four ("2") ("3") ("1") ("1") ("2 3 1 1") ("1 0.0 0.0") [] 2 3 1 1
    (by decide) (by decide) (by decide) (by decide) (by decide) (by decide) (by decide)

/-- C3 (counterexample): the header declares 1 node, dimension 3, 1
attribute, no boundary marker, so by the claim an entity line must carry
`1 + 3 + 1 + 0 = 5` tokens; the code rejects exactly that line with the
too-many-values `ValueError`. -/
theorem attribute_tokens_rejected_concrete :
    readNodeFile [("1 3 1 0"), ("1 0.0 0.0 0.0 7")] = .error (.valueErrorTooMany 4) := by
  decide


theorem readNodeLine_small_row (k : Nat) (line : String)
    (hk : k < 3) (h : (pySplit line).length = 4) :
    readNodeLine k line = .error .indexError := by
  rcases hs : pySplit line with _ | ⟨a, _ | ⟨b, _ | ⟨c, _ | ⟨d, _ | ⟨e, tl⟩⟩⟩⟩⟩ <;>
    simp_all [readNodeLine]

theorem readNodeLine_never_ok_of_small_row (k : Nat) (line : String) (hk : k < 3) :
    exceptOk (readNodeLine k line) = false := by
  by_cases h : (pySplit line).length = 4
  · rw [readNodeLine_small_row k line hk h]; rfl
  · rw [readNodeLine_token_count k line h]
    split
    · rfl
    · rfl

/-- C10 (amended): a node file whose header declares coordinate dimension 2
and at least one node never loads: when the first entity line carries
exactly four tokens the unpack assigns a third coordinate into the
2-element `NodeCoords` row and fails with `IndexError`; any other token
count fails with the unpacking `ValueError` before that. -/
theorem dim2_node_file_never_loads
    (t0 t1 t2 t3 header : String) (dataLines : List String) (n na bm : Int)
    (hh : pySplit header = [t0, t1, t2, t3])
    (h0 : pyInt? t0 = some n) (h1 : pyInt? t1 = some 2)
    (h2 : pyInt? t2 = some na) (h3 : pyInt? t3 = some bm)
    (hn : 0 < n.toNat) :
    exceptOk (readNodeFile (header :: dataLines)) = false
      ∧ ((pySplit (dataLines.headD (""))).length = 4 →
          readNodeFile (header :: dataLines) = .error .indexError) := by
  obtain ⟨m, hm⟩ : ∃ m, n.toNat = m + 1 := ⟨n.toNat - 1, by omega⟩
  have hko : 2 < 3 := by omega
  constructor
  · have hline := readNodeLine_never_ok_of_small_row 2 (dataLines.headD ("")) hko
    obtain ⟨e, he⟩ : ∃ e, readNodeLine 2 (dataLines.headD ("")) = .error e := by
      cases hr : readNodeLine 2 (dataLines.headD (""))
      · exact ⟨_, rfl⟩
      · rw [hr] at hline; simp [exceptOk] at hline
    simp only [List.headD_eq_head?] at he
    simp [readNodeFile, hh, pyIntE, h0, h1, h2, h3, hm, readNodeLoop, he, exceptOk,
      Except.instMonad, Except.bind, Except.pure]
  · intro hfour
    have hline := readNodeLine_small_row 2 (dataLines.headD ("")) hko hfour
    simp only [List.headD_eq_head?] at hline
    simp [readNodeFile, hh, pyIntE, h0, h1, h2, h3, hm, readNodeLoop, hline,
      Except.instMonad, Except.bind, Except.pure]

/-- Witness for C10: a dimension-2 header with a four-token line fails with
`IndexError`, never loading the 2D mesh. -/
theorem dim2_node_file_never_loads_witness :
    exceptOk (readNodeFile [("1 2 0 0"), ("1 0.5 0.5 1")]) = false
      ∧ ((pySplit (([("1 0.5 0.5 1")] : List String).headD (""))).length = 4 →
          readNodeFile [("1 2 0 0"), ("1 0.5 0.5 1")] = .error .indexError) :=
  dim2_node_file_never_loads ("1") ("2") ("0") ("0") ("1 2 0 0") [("1 0.5 0.5 1")] 1 0 0
    (by decide) (by decide) (by decide) (by decide) (by decide) (by decide)

/-- C10 (counterexample): with a dimension-2 header, the natural 2D entity
line `"1 0.5 0.5"` (three tokens) fails with the unpacking `ValueError`,
not with an index-out-of-range error, so dimension-2 reads do not always
fail with an index-out-of-range error. -/
theorem dim2_three_token_line_valueerror :
    readNodeFile [("1 2 0 0"), ("1 0.5 0.5")] = .error (.valueErrorNotEnough 4 3)
      ∧ readNodeFile [("1 2 0 0"), ("1 0.5 0.5")] ≠ .error .indexError := by
  decide

/-- C2 (counterexample): on the file declaring 10 nodes with 9 entity lines
the reader raises the generic unpacking `ValueError`; it does not raise
`TruncatedFileError` (no such error class exists in the code). -/
theorem truncated_file_python_valueerror_concrete :
    readNodeFile [("10 3 0 0"), ("1 0.1 0.0 0.0"), ("2 0.0 0.0 0.0"), ("3 0.0 0.0 0.0"),
        ("4 0.0 0.0 0.0"), ("5 0.0 0.0 0.0"), ("6 0.0 0.0 0.0"), ("7 0.0 0.0 0.0"),
        ("8 0.0 0.0 0.0"), ("9 0.0 0.0 0.0")] = .error (.valueErrorNotEnough 4 0)
      ∧ readNodeFile [("10 3 0 0"), ("1 0.1 0.0 0.0"), ("2 0.0 0.0 0.0"), ("3 0.0 0.0 0.0"),
        ("4 0.0 0.0 0.0"), ("5 0.0 0.0 0.0"), ("6 0.0 0.0 0.0"), ("7 0.0 0.0 0.0"),
        ("8 0.0 0.0 0.0"), ("9 0.0 0.0 0.0")] ≠ .error .truncatedFileError := by
  decide


theorem pyIntE_not_dangling (s : String) :
    pyIntE s ≠ .error .danglingNodeReferenceError := by
  unfold pyIntE
  cases pyInt? s <;> simp

theorem readElemLine_not_dangling (rowLen : Nat) (line : String) :
    readElemLine rowLen line ≠ .error .danglingNodeReferenceError := by
  unfold readElemLine
  split
  · split <;> simp
  · split <;> simp

theorem bindE_not_dangling {α β : Type} (e : MeshError) (x : Except MeshError α)
    (f : α → Except MeshError β) (hx : x ≠ .error e) (hf : ∀ a, f a ≠ .error e) :
    (x >>= f) ≠ .error e := by
  cases x with
  | error err =>
    intro hc
    simp [Except.instMonad, Except.bind] at hc
    exact hx (by rw [hc])
  | ok a =>
    simpa [Except.instMonad, Except.bind] using hf a

theorem readElemLoop_not_dangling (rowLen : Nat) (ls : List String) (n : Nat) :
    readElemLoop rowLen ls n ≠ .error .danglingNodeReferenceError := by
  induction n generalizing ls with
  | zero => simp [readElemLoop]
  | succ n ih =>
    refine bindE_not_dangling _ _ _ (readElemLine_not_dangling _ _) (fun a => ?_)
    obtain ⟨e, m0, m1, m2, m3⟩ := a
    exact bindE_not_dangling _ _ _ (ih _) (fun b => by simp)

theorem readElemFile_not_dangling (lines : List String) :
    readElemFile lines ≠ .error .danglingNodeReferenceError := by
  unfold readElemFile
  split
  case h_2 => split <;> simp
  refine bindE_not_dangling _ _ _ (pyIntE_not_dangling _) (fun x => ?_)
  refine bindE_not_dangling _ _ _ (pyIntE_not_dangling _) (fun y => ?_)
  refine bindE_not_dangling _ _ _ (pyIntE_not_dangling _) (fun z => ?_)
  refine bindE_not_dangling _ _ _ (readElemLoop_not_dangling _ _ _) (fun w => ?_)
  obtain ⟨es, ms⟩ := w
  simp

theorem buildMeshElementsLoop_not_dangling
    (rows : List (String × (String × String × String × String))) :
    buildMeshElementsLoop rows ≠ .error .danglingNodeReferenceError := by
  induction rows with
  | nil => simp [buildMeshElementsLoop]
  | cons r rest ih =>
    obtain ⟨e, m0, m1, m2, m3⟩ := r
    refine bindE_not_dangling _ _ _ (pyIntE_not_dangling _) (fun a => ?_)
    refine bindE_not_dangling _ _ _ (pyIntE_not_dangling _) (fun b => ?_)
    refine bindE_not_dangling _ _ _ (pyIntE_not_dangling _) (fun c => ?_)
    refine bindE_not_dangling _ _ _ (pyIntE_not_dangling _) (fun d => ?_)
    refine bindE_not_dangling _ _ _ (pyIntE_not_dangling _) (fun el => ?_)
    exact bindE_not_dangling _ _ _ ih (fun tl => by simp)

/-- C4 (amended): element loading performs no validation against the node
set — it can never fail with `DanglingNodeReferenceError`, for any element
file whatsoever. -/
theorem load_elements_never_dangling_error (lines : List String) :
    loadElements lines ≠ .error .danglingNodeReferenceError := by
  unfold loadElements
  refine bindE_not_dangling _ _ _ (readElemFile_not_dangling _) (fun d => ?_)
  exact buildMeshElementsLoop_not_dangling _

/-- C4 (counterexample): the node file supplies the node set `{1, 2, 3, 4}`,
the element file references node 99; loading nevertheless succeeds and the
mesh elements are constructed containing the dangling reference. -/
theorem dangling_reference_not_detected_concrete :
    (readNodeFile [("4 3 0 0"), ("1 0.0 0.0 0.0"), ("2 1.0 0.0 0.0"), ("3 0.0 1.0 0.0"),
        ("4 0.0 0.0 1.0")]).map (fun d => d.nodeNums) = .ok [1, 2, 3, 4]
      ∧ loadElements [("1 4 0"), ("1 1 2 3 99")] = .ok [(1, [1, 2, 3, 99])]
      ∧ (99 : Int) ∉ [(1 : Int), 2, 3, 4]
      ∧ loadElements [("1 4 0"), ("1 1 2 3 99")] ≠ .error .danglingNodeReferenceError := by
  refine ⟨by decide, by decide, by decide, by decide⟩


theorem tetJacobianCheck_error_of_nonpos (t : Tet) (h : tetJacobianDet t ≤ 0) :
    tetJacobianCheck t = .error .invertedElementError := by
  simp [tetJacobianCheck, h]

theorem assembleJacobianChecks_error_only_inverted (tets : List Tet) (e : MeshError)
    (h : assembleJacobianChecks tets = .error e) : e = .invertedElementError := by
  induction tets generalizing e with
  | nil => simp [assembleJacobianChecks] at h
  | cons t ts ih =>
    rw [assembleJacobianChecks] at h
    rcases hc : tetJacobianCheck t with err | d
    · rw [hc] at h
      unfold tetJacobianCheck at hc
      split at hc
      · simp [Except.instMonad, Except.bind] at h
        rw [← h]
        exact (Except.error.injEq _ _).mp hc.symm
      · simp at hc
    · rw [hc] at h
      simp only [Except.instMonad, Except.bind] at h
      rcases hr : assembleJacobianChecks ts with err2 | ds
      · rw [hr] at h
        simp at h
        rw [← h]
        exact ih err2 hr
      · rw [hr] at h
        simp at h

/-- C5: an element whose node list, taken in reversed (mis-wound) order,
has non-positive Jacobian determinant makes assembly fail with
`InvertedElementError`; a non-positive determinant is never silently passed
through. -/
theorem assembly_rejects_nonpositive_jacobian (tets : List Tet) (t : Tet)
    (hmem : tetReverse t ∈ tets) (hdet : tetJacobianDet (tetReverse t) ≤ 0) :
    assembleJacobianChecks tets = .error .invertedElementError := by
  induction tets with
  | nil => simp at hmem
  | cons t0 ts ih =>
    rcases List.mem_cons.mp hmem with heq | hmem2
    · rw [assembleJacobianChecks, ← heq, tetJacobianCheck_error_of_nonpos _ hdet]
      rfl
    · rw [assembleJacobianChecks]
      rcases hc : tetJacobianCheck t0 with err | d
      · have := assembleJacobianChecks_error_only_inverted [t0] err
          (by simp [assembleJacobianChecks, hc, Except.instMonad, Except.bind])
        simp [this, Except.instMonad, Except.bind]
      · simp [hc, ih hmem2, Except.instMonad, Except.bind]

/-- Witness for C5: the reversed node list of a mis-wound unit tetrahedron
has determinant `-1` and is rejected by assembly. -/
theorem assembly_rejects_nonpositive_jacobian_witness :
    tetJacobianDet (tetReverse ⟨(0, 0, 0), (0, 1, 0), (1, 0, 0), (0, 0, 1)⟩) ≤ 0
      ∧ assembleJacobianChecks [tetReverse ⟨(0, 0, 0), (0, 1, 0), (1, 0, 0), (0, 0, 1)⟩] =
          .error .invertedElementError := by
  have hdet : tetJacobianDet (tetReverse ⟨(0, 0, 0), (0, 1, 0), (1, 0, 0), (0, 0, 1)⟩) ≤ 0 := by
    norm_num [tetJacobianDet, det3, vsub, tetReverse]
  exact ⟨hdet, assembly_rejects_nonpositive_jacobian _ _ (by simp) hdet⟩


theorem toList_append (a b : String) : (a ++ b).toList = a.toList ++ b.toList := rfl

theorem pyWordsAux_wsfree_word (w : List Char) (hw : ∀ c ∈ w, c.isWhitespace = false)
    (cur l : List Char) :
    pyWordsAux cur (w ++ l) = pyWordsAux (w.reverse ++ cur) l := by
  induction w generalizing cur with
  | nil => simp
  | cons c cs ih =>
    have hc : c.isWhitespace = false := hw c (by simp)
    simp only [List.cons_append, pyWordsAux, hc, Bool.false_eq_true, if_false, List.append_eq]
    rw [ih (fun x hx => hw x (by simp [hx])) (c :: cur)]
    simp

theorem pyWordsAux_space (cur l : List Char) (h : cur ≠ []) :
    pyWordsAux cur (' ' :: l) = cur.reverse :: pyWordsAux [] l := by
  simp +decide [pyWordsAux, h]

theorem pyWordsAux_last (cur : List Char) (h : cur ≠ []) :
    pyWordsAux cur [] = [cur.reverse] := by
  simp [pyWordsAux, h]

theorem pyWords_single (w : List Char) (hw : ∀ c ∈ w, c.isWhitespace = false) (hn : w ≠ []) :
    pyWordsAux [] w = [w] := by
  conv_lhs => rw [← List.append_nil w]
  rw [pyWordsAux_wsfree_word w hw]
  rw [List.append_nil, pyWordsAux_last _ (by simpa using hn)]
  simp

theorem pyWords_five (w1 w2 w3 w4 w5 : List Char)
    (h1 : ∀ c ∈ w1, c.isWhitespace = false) (hn1 : w1 ≠ [])
    (h2 : ∀ c ∈ w2, c.isWhitespace = false) (hn2 : w2 ≠ [])
    (h3 : ∀ c ∈ w3, c.isWhitespace = false) (hn3 : w3 ≠ [])
    (h4 : ∀ c ∈ w4, c.isWhitespace = false) (hn4 : w4 ≠ [])
    (h5 : ∀ c ∈ w5, c.isWhitespace = false) (hn5 : w5 ≠ []) :
    pyWordsAux [] (w1 ++ ' ' :: (w2 ++ ' ' :: (w3 ++ ' ' :: (w4 ++ ' ' :: w5)))) =
      [w1, w2, w3, w4, w5] := by
  rw [pyWordsAux_wsfree_word w1 h1, List.append_nil,
    pyWordsAux_space _ _ (by simpa using hn1), List.reverse_reverse,
    pyWordsAux_wsfree_word w2 h2, List.append_nil,
    pyWordsAux_space _ _ (by simpa using hn2), List.reverse_reverse,
    pyWordsAux_wsfree_word w3 h3, List.append_nil,
    pyWordsAux_space _ _ (by simpa using hn3), List.reverse_reverse,
    pyWordsAux_wsfree_word w4 h4, List.append_nil,
    pyWordsAux_space _ _ (by simpa using hn4), List.reverse_reverse,
    pyWords_single w5 h5 hn5]

theorem strNodeRecord_splits_into_five (frepr : ℚ → String) (r : NodeRecord)
    (hid : wsFree (pyStrInt r.node)) (hx : wsFree (frepr r.x)) (hy : wsFree (frepr r.y))
    (hz : wsFree (frepr r.z)) (hs : wsFree (frepr r.sol)) :
    (pySplit (strNodeRecord frepr r)).length = 5 := by
  have htl : (strNodeRecord frepr r).toList =
      ('[' :: (pyStrInt r.node).toList ++ [',']) ++ ' ' ::
        (((frepr r.x).toList ++ [',']) ++ ' ' ::
          (((frepr r.y).toList ++ [',']) ++ ' ' ::
            (((frepr r.z).toList ++ [',']) ++ ' ' ::
              ((frepr r.sol).toList ++ [']'])))) := by
    simp only [strNodeRecord, toList_append]
    simp +decide [List.append_assoc]
  unfold pySplit
  rw [htl, pyWords_five]
  · simp
  · intro c hc
    rcases List.mem_cons.mp hc with rfl | hc
    · decide
    · rcases List.mem_append.mp hc with hc | hc
      · exact hid c hc
      · simp_all
  · simp
  · intro c hc
    rcases List.mem_append.mp hc with hc | hc
    · exact hx c hc
    · simp_all
  · simp
  · intro c hc
    rcases List.mem_append.mp hc with hc | hc
    · exact hy c hc
    · simp_all
  · simp
  · intro c hc
    rcases List.mem_append.mp hc with hc | hc
    · exact hz c hc
    · simp_all
  · simp
  · intro c hc
    rcases List.mem_append.mp hc with hc | hc
    · exact hs c hc
    · simp_all
  · simp


/-- C1 (amended): round-trip fails — the node export writes Python list
displays (`[id, x, y, z, sol]`, five comma-separated fields, no header
line), so re-reading the exported node file through the File Reader raises
the too-many-values unpacking `ValueError` at the header parse for every
mesh with at least one node (for any whitespace-free float rendering); the
original mesh is never reproduced. -/
theorem roundtrip_read_of_export_fails (frepr : ℚ → String) (geom : Nat → Nat → ℚ)
    (sol : Nat → ℚ) (n : Nat) (hn : 0 < n) (hfr : ∀ q, wsFree (frepr q)) :
    readNodeFile (writeNodeFileLines frepr (nodes_list n geom sol)) =
      .error (.valueErrorTooMany 4) := by
  obtain ⟨m, rfl⟩ : ∃ m, n = m + 1 := ⟨n - 1, by omega⟩
  have hfirst : (writeNodeFileLines frepr (nodes_list (m + 1) geom sol)).headD ("") =
      strNodeRecord frepr ⟨Int.ofNat 1, geom 1 1, geom 1 2, geom 1 3, sol 1⟩ := by
    unfold writeNodeFileLines nodes_list
    rw [List.range_succ_eq_map]
    simp
  have hlen := strNodeRecord_splits_into_five frepr
    ⟨Int.ofNat 1, geom 1 1, geom 1 2, geom 1 3, sol 1⟩
    (show wsFree (pyStrInt (Int.ofNat 1)) by unfold wsFree; decide) (hfr _) (hfr _) (hfr _) (hfr _)
  unfold readNodeFile
  rw [hfirst]
  rcases hs : pySplit (strNodeRecord frepr
      ⟨Int.ofNat 1, geom 1 1, geom 1 2, geom 1 3, sol 1⟩) with
    _ | ⟨a, _ | ⟨b, _ | ⟨c, _ | ⟨d, _ | ⟨e, tl⟩⟩⟩⟩⟩ <;> rw [hs] at hlen <;> simp_all


/-- Witness for C1 (amended): a one-node mesh with constant fields,
rendered with Python's repr of `0.5`. -/
theorem roundtrip_read_of_export_fails_witness :
    readNodeFile (writeNodeFileLines (fun _ => ("0.5"))
        (nodes_list 1 (fun _ _ => 1/2) (fun _ => 1/2))) =
      .error (.valueErrorTooMany 4) :=
  roundtrip_read_of_export_fails (fun _ => ("0.5")) (fun _ _ => 1/2) (fun _ => 1/2) 1
    (by omega) (fun q => by show ∀ c ∈ (("0.5" : String)).toList, c.isWhitespace = false; decide)

/-- C1 (counterexample): exporting the one-node mesh with constant field
value `0.5` produces the line `"[1, 0.5, 0.5, 0.5, 0.5]"`; re-reading it
through the File Reader fails at the header unpack instead of reproducing
the mesh. -/
theorem roundtrip_fails_concrete :
    writeNodeFileLines (fun _ => ("0.5")) (nodes_list 1 (fun _ _ => 1/2) (fun _ => 1/2)) =
        [("[1, 0.5, 0.5, 0.5, 0.5]")]
      ∧ readNodeFile [("[1, 0.5, 0.5, 0.5, 0.5]")] = .error (.valueErrorTooMany 4) := by
  constructor
  · decide
  · decide


theorem contigIds_findIdx_aux (a : Int) (n i s : Nat) (hi : i < n) :
    List.findIdx? (fun v => v == a + Int.ofNat i) (contigIds a n) s = some (s + i) := by
  induction n generalizing a i s with
  | zero => omega
  | succ n ih =>
    rw [contigIds, List.findIdx?_cons]
    cases i with
    | zero => simp
    | succ i =>
      have hne : (a == a + Int.ofNat (i + 1)) = false := by
        simp
        omega
      have h3 : (fun (v : Int) => v == a + Int.ofNat (i + 1)) =
          (fun v => v == (a + 1) + Int.ofNat i) := by
        funext v
        have harith : a + Int.ofNat (i + 1) = (a + 1) + Int.ofNat i := by
          simp only [Int.ofNat_eq_coe]
          omega
        rw [harith]
      rw [hne]
      simp only [Bool.false_eq_true, if_false]
      rw [h3, ih (a + 1) i (s + 1) (by omega)]
      congr 1
      omega

theorem contigIds_findIdx (a : Int) (n i : Nat) (hi : i < n) :
    (contigIds a n).findIdx? (fun v => v == a + Int.ofNat i) = some i := by
  simpa using contigIds_findIdx_aux a n i 0 hi

theorem range_map_eq_contigIds (a : Int) (n : Nat) :
    (List.range n).map (fun (i : Nat) => a + Int.ofNat i) = contigIds a n := by
  induction n generalizing a with
  | zero => simp [contigIds]
  | succ n ih =>
    rw [List.range_succ_eq_map, contigIds]
    simp only [List.map_cons, List.map_map, List.cons.injEq]
    refine ⟨by simp, ?_⟩
    rw [← ih (a + 1)]
    apply List.map_congr_left
    intro i hi
    simp only [Function.comp, Int.ofNat_eq_coe]
    omega

theorem contigIds_chain_lt (a : Int) (n : Nat) :
    (contigIds a n).Chain' (fun x y => x < y) := by
  induction n generalizing a with
  | zero => simp [contigIds]
  | succ n ih =>
    rw [contigIds]
    apply List.chain'_cons'.mpr
    refine ⟨?_, ih (a + 1)⟩
    intro y hy
    cases n with
    | zero => simp [contigIds] at hy
    | succ n =>
      rw [contigIds] at hy
      simp at hy
      omega


/-- C6: in the vtk export, every cell-connectivity row is the element's
node-id list shifted down by exactly one (the 1-based to 0-based
renumbering); the point-data array `solution` holds the value of node `i+1`
at row `i`; and, for the contiguously numbered mesh the notebook reads,
the points array row `i` is the coordinate row of node `i+1`. -/
theorem vtk_export_renumbering_and_alignment
    (num_elem num_nodes : Nat) (elemNodes : Nat → Fin 4 → Int) (sol : Nat → ℚ)
    (lines : List String) (d : NodeFileData) (j i : Nat)
    (hj : j < num_elem) (hi : i < num_nodes)
    (_hread : readNodeFile lines = .ok d)
    (hnums : d.nodeNums = contigIds 1 num_nodes) :
    (cells_array (elements_list num_elem elemNodes))[j]? =
        some [elemNodes (j+1) 0 - 1, elemNodes (j+1) 1 - 1, elemNodes (j+1) 2 - 1,
          elemNodes (j+1) 3 - 1]
      ∧ (solution_field_nodes num_nodes sol)[i]? = some (sol (i+1))
      ∧ coordsOfNode d (Int.ofNat (i+1)) = d.nodeCoords[i]? := by
  refine ⟨?_, ?_, ?_⟩
  · simp [cells_array, elements_list, List.getElem?_map, List.getElem?_range, hj]
  · simp [solution_field_nodes, List.getElem?_map, List.getElem?_range, hi]
  · rw [coordsOfNode, hnums]
    have hfind := contigIds_findIdx 1 num_nodes i hi
    rw [show (1 : Int) + Int.ofNat i = Int.ofNat (i+1) by
      simp only [Int.ofNat_eq_coe]; omega] at hfind
    rw [hfind]
    rfl

/-- Witness for C6 on a concrete two-node, one-element mesh. -/
theorem vtk_export_renumbering_and_alignment_witness :
    (cells_array (elements_list 1 (fun _ _ => 2)))[0]? = some [1, 1, 1, 1]
      ∧ (solution_field_nodes 2 (fun _ => 1/2))[1]? = some ((fun (_ : Nat) => (1/2 : ℚ)) 2)
      ∧ coordsOfNode ⟨2, 3, 0, 0, [1, 2], [[1/2, 0, 0], [1, 0, 0]]⟩ (Int.ofNat 2) =
          ([[(1/2 : ℚ), 0, 0], [1, 0, 0]] : List (List ℚ))[1]? := by
  have hread : readNodeFile [("2 3 0 0"), ("1 0.5 0.0 0.0"), ("2 1.0 0.0 0.0")] =
      .ok ⟨2, 3, 0, 0, [1, 2], [[1/2, 0, 0], [1, 0, 0]]⟩ := by
    simp +decide [readNodeFile, readNodeLoop, readNodeLine, pySplit, pyWordsAux, pyIntE,
      pyFloatE, pyInt?, pyFloat?, pyFloatChars?, digitsToNat?, digitsAux, digit?, nodeCoordsRow,
      Except.instMonad, Except.bind, Except.pure]
    norm_num
  exact vtk_export_renumbering_and_alignment 1 2 (fun _ _ => 2) (fun _ => 1/2) _ _ 0 1
    (by omega) (by omega) hread (by simp [contigIds])

/-- C7: the node export produces exactly one record per node, in increasing
node id order, each record being `[node id, x, y, z, solution value]`; the
element export produces one record per element of the form
`[element id, node 1, node 2, node 3, node 4]`. -/
theorem export_records_per_node_and_element
    (num_nodes num_elem : Nat) (geom : Nat → Nat → ℚ) (sol : Nat → ℚ)
    (elemNodes : Nat → Fin 4 → Int) (i j : Nat) (hi : i < num_nodes) (hj : j < num_elem) :
    (nodes_list num_nodes geom sol).length = num_nodes
      ∧ (nodes_list num_nodes geom sol)[i]? =
          some ⟨Int.ofNat (i+1), geom (i+1) 1, geom (i+1) 2, geom (i+1) 3, sol (i+1)⟩
      ∧ (nodes_list num_nodes geom sol).map (fun r => r.node) = contigIds 1 num_nodes
      ∧ ((nodes_list num_nodes geom sol).map (fun r => r.node)).Chain' (fun x y => x < y)
      ∧ (elements_list num_elem elemNodes).length = num_elem
      ∧ (elements_list num_elem elemNodes)[j]? =
          some [Int.ofNat (j+1), elemNodes (j+1) 0, elemNodes (j+1) 1, elemNodes (j+1) 2,
            elemNodes (j+1) 3] := by
  have hmap : (nodes_list num_nodes geom sol).map (fun r => r.node) = contigIds 1 num_nodes := by
    rw [← range_map_eq_contigIds 1 num_nodes]
    unfold nodes_list
    rw [List.map_map]
    apply List.map_congr_left
    intro x hx
    simp only [Function.comp, Int.ofNat_eq_coe]
    omega
  refine ⟨by simp [nodes_list], ?_, hmap, ?_, by simp [elements_list], ?_⟩
  · simp [nodes_list, List.getElem?_map, List.getElem?_range, hi]
  · rw [hmap]
    exact contigIds_chain_lt 1 num_nodes
  · simp [elements_list, List.getElem?_map, List.getElem?_range, hj]

/-- Witness for C7 on a concrete two-node, one-element mesh. -/
theorem export_records_per_node_and_element_witness :
    (nodes_list 2 (fun _ _ => 0) (fun _ => 0)).length = 2
      ∧ (nodes_list 2 (fun _ _ => 0) (fun _ => 0))[0]? = some ⟨Int.ofNat 1, 0, 0, 0, 0⟩
      ∧ (nodes_list 2 (fun _ _ => 0) (fun _ => 0)).map (fun r => r.node) = contigIds 1 2
      ∧ ((nodes_list 2 (fun _ _ => 0) (fun _ => 0)).map (fun r => r.node)).Chain'
          (fun x y => x < y)
      ∧ (elements_list 1 (fun _ _ => 3)).length = 1
      ∧ (elements_list 1 (fun _ _ => 3))[0]? = some [Int.ofNat 1, 3, 3, 3, 3] :=
  export_records_per_node_and_element 2 1 (fun _ _ => 0) (fun _ => 0) (fun _ _ => 3) 0 0
    (by omega) (by omega)


/-- C9: `nodes_list[:][k]` is row `k` of `nodes_list`, not column `k`; for
any mesh with at least five nodes the four saved arrays are the complete
five-entry records `[id, x, y, z, sol]` of nodes 2, 3, 4 and 5
respectively, not the x / y / z / solution columns they are named for. -/
theorem numpy_export_saves_rows_not_columns (num_nodes : Nat) (geom : Nat → Nat → ℚ)
    (sol : Nat → ℚ) (h : 5 ≤ num_nodes) :
    numpyExport (nodes_list num_nodes geom sol) =
      (some [((2 : Int) : ℚ), geom 2 1, geom 2 2, geom 2 3, sol 2],
       some [((3 : Int) : ℚ), geom 3 1, geom 3 2, geom 3 3, sol 3],
       some [((4 : Int) : ℚ), geom 4 1, geom 4 2, geom 4 3, sol 4],
       some [((5 : Int) : ℚ), geom 5 1, geom 5 2, geom 5 3, sol 5]) := by
  have h1 : (1 : Nat) < num_nodes := by omega
  have h2 : (2 : Nat) < num_nodes := by omega
  have h3 : (3 : Nat) < num_nodes := by omega
  have h4 : (4 : Nat) < num_nodes := by omega
  simp [numpyExport, npSliceIndex, npArrayOfRecord, nodes_list,
    List.getElem?_map, List.getElem?_range, h1, h2, h3, h4]

/-- Witness for C9 on a concrete five-node mesh. -/
theorem numpy_export_saves_rows_not_columns_witness :
    numpyExport (nodes_list 5 (fun n c => (n : ℚ) + (c : ℚ)) (fun n => (n : ℚ))) =
      (some [((2 : Int) : ℚ), (2 : ℚ) + (1 : ℚ), (2 : ℚ) + (2 : ℚ), (2 : ℚ) + (3 : ℚ), (2 : ℚ)],
       some [((3 : Int) : ℚ), (3 : ℚ) + (1 : ℚ), (3 : ℚ) + (2 : ℚ), (3 : ℚ) + (3 : ℚ), (3 : ℚ)],
       some [((4 : Int) : ℚ), (4 : ℚ) + (1 : ℚ), (4 : ℚ) + (2 : ℚ), (4 : ℚ) + (3 : ℚ), (4 : ℚ)],
       some [((5 : Int) : ℚ), (5 : ℚ) + (1 : ℚ), (5 : ℚ) + (2 : ℚ), (5 : ℚ) + (3 : ℚ), (5 : ℚ)]) := by
  have := numpy_export_saves_rows_not_columns 5 (fun n c => (n : ℚ) + (c : ℚ))
    (fun n => (n : ℚ)) (by omega)
  simpa using this



section
attribute [local semireducible] Rat.add Rat.mul Rat.inv Rat.sub

theorem quadRule2D_weights_sum : (quadRule2D.map (fun pw => pw.2)).sum = 1 := by decide

theorem globalK_e10 : globalK 1 0 = 7/18 := by decide

theorem globalK_e11 : globalK 1 1 = 10/9 := by decide

theorem globalK_e12 : globalK 1 2 = (-5/9) := by decide

theorem globalK_e13 : globalK 1 3 = (-17/18) := by decide

theorem globalK_e14 : globalK 1 4 = 0 := by decide

theorem globalK_e15 : globalK 1 5 = 0 := by decide

theorem globalK_e16 : globalK 1 6 = 0 := by decide

theorem globalK_e17 : globalK 1 7 = 0 := by decide

theorem globalK_e20 : globalK 2 0 = (-17/18) := by decide

theorem globalK_e21 : globalK 2 1 = (-5/9) := by decide

theorem globalK_e22 : globalK 2 2 = 20/9 := by decide

theorem globalK_e23 : globalK 2 3 = 7/9 := by decide

theorem globalK_e24 : globalK 2 4 = (-17/18) := by decide

theorem globalK_e25 : globalK 2 5 = (-5/9) := by decide

theorem globalK_e26 : globalK 2 6 = 0 := by decide

theorem globalK_e27 : globalK 2 7 = 0 := by decide

theorem globalK_e30 : globalK 3 0 = (-5/9) := by decide

theorem globalK_e31 : globalK 3 1 = (-17/18) := by decide

theorem globalK_e32 : globalK 3 2 = 7/9 := by decide

theorem globalK_e33 : globalK 3 3 = 20/9 := by decide

theorem globalK_e34 : globalK 3 4 = (-5/9) := by decide

theorem globalK_e35 : globalK 3 5 = (-17/18) := by decide

theorem globalK_e36 : globalK 3 6 = 0 := by decide

theorem globalK_e37 : globalK 3 7 = 0 := by decide

theorem globalK_e40 : globalK 4 0 = 0 := by decide

theorem globalK_e41 : globalK 4 1 = 0 := by decide

theorem globalK_e42 : globalK 4 2 = (-17/18) := by decide

theorem globalK_e43 : globalK 4 3 = (-5/9) := by decide

theorem globalK_e44 : globalK 4 4 = 20/9 := by decide

theorem globalK_e45 : globalK 4 5 = 7/9 := by decide

theorem globalK_e46 : globalK 4 6 = (-17/18) := by decide

theorem globalK_e47 : globalK 4 7 = (-5/9) := by decide

theorem globalK_e50 : globalK 5 0 = 0 := by decide

theorem globalK_e51 : globalK 5 1 = 0 := by decide

theorem globalK_e52 : globalK 5 2 = (-5/9) := by decide

theorem globalK_e53 : globalK 5 3 = (-17/18) := by decide

theorem globalK_e54 : globalK 5 4 = 7/9 := by decide

theorem globalK_e55 : globalK 5 5 = 20/9 := by decide

theorem globalK_e56 : globalK 5 6 = (-5/9) := by decide

theorem globalK_e57 : globalK 5 7 = (-17/18) := by decide

theorem globalK_e60 : globalK 6 0 = 0 := by decide

theorem globalK_e61 : globalK 6 1 = 0 := by decide

theorem globalK_e62 : globalK 6 2 = 0 := by decide

theorem globalK_e63 : globalK 6 3 = 0 := by decide

theorem globalK_e64 : globalK 6 4 = (-17/18) := by decide

theorem globalK_e65 : globalK 6 5 = (-5/9) := by decide

theorem globalK_e66 : globalK 6 6 = 10/9 := by decide

theorem globalK_e67 : globalK 6 7 = 7/18 := by decide

theorem laplace_satisfies : satisfiesConstrainedSystem laplaceSolution := by
  refine ⟨by decide, by decide, ?_⟩
  intro p h0 h7
  fin_cases p
  · simp at h0
  · decide
  · decide
  · decide
  · decide
  · decide
  · decide
  · simp at h7

end

theorem laplace_solution_unique (u : Fin 8 → ℚ) (h : satisfiesConstrainedSystem u) :
    u = laplaceSolution := by
  obtain ⟨h0, h7, hfree⟩ := h
  have e1 := hfree 1 (by decide) (by decide)
  have e2 := hfree 2 (by decide) (by decide)
  have e3 := hfree 3 (by decide) (by decide)
  have e4 := hfree 4 (by decide) (by decide)
  have e5 := hfree 5 (by decide) (by decide)
  have e6 := hfree 6 (by decide) (by decide)
  simp only [Fin.sum_univ_eight, h0, h7, globalK_e10, globalK_e11, globalK_e12, globalK_e13, globalK_e14, globalK_e15, globalK_e16, globalK_e17, globalK_e20, globalK_e21, globalK_e22, globalK_e23, globalK_e24, globalK_e25, globalK_e26, globalK_e27, globalK_e30, globalK_e31, globalK_e32, globalK_e33, globalK_e34, globalK_e35, globalK_e36, globalK_e37, globalK_e40, globalK_e41, globalK_e42, globalK_e43, globalK_e44, globalK_e45, globalK_e46, globalK_e47, globalK_e50, globalK_e51, globalK_e52, globalK_e53, globalK_e54, globalK_e55, globalK_e56, globalK_e57, globalK_e60, globalK_e61, globalK_e62, globalK_e63, globalK_e64, globalK_e65, globalK_e66, globalK_e67] at e1 e2 e3 e4 e5 e6
  funext p
  fin_cases p
  · exact h0
  · show u 1 = 19/30
    linear_combination (626/285) * e1 + (517/855) * e2 + (200/171) * e3 + (124/171) * e4
      + (536/855) * e5 + (53/57) * e6
  · show u 2 = 29/90
    linear_combination (517/855) * e1 + (430/513) * e2 + (112/513) * e3 + (302/513) * e4
      + (649/2565) * e5 + (536/855) * e6
  · show u 3 = 5/9
    linear_combination (200/171) * e1 + (112/513) * e2 + (640/513) * e3 + (260/513) * e4
      + (302/513) * e5 + (124/171) * e6
  · show u 4 = 4/9
    linear_combination (124/171) * e1 + (302/513) * e2 + (260/513) * e3 + (640/513) * e4
      + (112/513) * e5 + (200/171) * e6
  · show u 5 = 61/90
    linear_combination (536/855) * e1 + (649/2565) * e2 + (302/513) * e3 + (112/513) * e4
      + (430/513) * e5 + (517/855) * e6
  · show u 6 = 11/30
    linear_combination (53/57) * e1 + (536/855) * e2 + (124/171) * e3 + (200/171) * e4
      + (517/855) * e5 + (626/285) * e6
  · exact h7


section
attribute [local semireducible] Rat.add Rat.mul Rat.inv Rat.sub

/-- C8 (amended): the solved field of the 1×3-element Laplace problem with
Dirichlet values 0 at node 1 and 1 at node 8 is unique; it satisfies both
boundary values exactly after constraint elimination and is monotone in x
along each horizontal grid row, but it is NOT monotonic along the
y-direction (the 3-element, constrained direction): both vertical node
columns fail monotonicity. -/
theorem laplace_1x3_solution_characterization (u : Fin 8 → ℚ)
    (h : satisfiesConstrainedSystem u) :
    u = laplaceSolution
      ∧ u 0 = 0 ∧ u 7 = 1
      ∧ (u 0 ≤ u 1 ∧ u 2 ≤ u 3 ∧ u 4 ≤ u 5 ∧ u 6 ≤ u 7)
      ∧ ¬ (u 0 ≤ u 2 ∧ u 2 ≤ u 4 ∧ u 4 ≤ u 6)
      ∧ ¬ (u 1 ≤ u 3 ∧ u 3 ≤ u 5 ∧ u 5 ≤ u 7) := by
  have hu := laplace_solution_unique u h
  subst hu
  exact ⟨rfl, by decide, by decide, by decide, by decide, by decide⟩

/-- Witness for C8 (amended), instantiated at the exact solution. -/
theorem laplace_1x3_solution_characterization_witness :
    laplaceSolution = laplaceSolution
      ∧ laplaceSolution 0 = 0 ∧ laplaceSolution 7 = 1
      ∧ (laplaceSolution 0 ≤ laplaceSolution 1 ∧ laplaceSolution 2 ≤ laplaceSolution 3
          ∧ laplaceSolution 4 ≤ laplaceSolution 5 ∧ laplaceSolution 6 ≤ laplaceSolution 7)
      ∧ ¬ (laplaceSolution 0 ≤ laplaceSolution 2 ∧ laplaceSolution 2 ≤ laplaceSolution 4
          ∧ laplaceSolution 4 ≤ laplaceSolution 6)
      ∧ ¬ (laplaceSolution 1 ≤ laplaceSolution 3 ∧ laplaceSolution 3 ≤ laplaceSolution 5
          ∧ laplaceSolution 5 ≤ laplaceSolution 7) :=
  laplace_1x3_solution_characterization laplaceSolution laplace_satisfies

/-- C8 (counterexample): the exact solved field of the constrained system
meets both boundary values but is not monotonic along the constrained
(y) direction in either node column, nor monotone in node-id order. -/
theorem laplace_1x3_solution_not_monotone :
    satisfiesConstrainedSystem laplaceSolution
      ∧ laplaceSolution 0 = 0 ∧ laplaceSolution 7 = 1
      ∧ ¬ (laplaceSolution 0 ≤ laplaceSolution 2 ∧ laplaceSolution 2 ≤ laplaceSolution 4
          ∧ laplaceSolution 4 ≤ laplaceSolution 6)
      ∧ ¬ (laplaceSolution 1 ≤ laplaceSolution 3 ∧ laplaceSolution 3 ≤ laplaceSolution 5
          ∧ laplaceSolution 5 ≤ laplaceSolution 7)
      ∧ ¬ (∀ k : Fin 7, laplaceSolution k.castSucc ≤ laplaceSolution k.succ) :=
  ⟨laplace_satisfies, by decide, by decide, by decide, by decide, by decide⟩

end

end MeshNb
